import Mathlib

/-!
Shallow embedding of the SMA stock dashboard (src/app.py) and verification of
its specification.

The program is a single script: a data pipeline `load_data` (pandas) that
reads a CSV, parses dates, drops rows whose `Trades` field is missing,
winsorizes `Volume` at the 1%/99% tails (scipy.stats.mstats.winsorize with
limits=[0.01, 0.01]), and derives return / moving-average / volatility
columns; followed by a presentation layer that renders EDA tables, nine
charts and three metrics, gated by three boolean checkboxes.

Modelling conventions:
  - numeric cells are rationals (ℚ); a missing cell (NaN) is `none` in an
    `Option ℚ` column.  `Trades` is the only column the claims need to be
    missing, so `RawRow.Trades : Option ℚ` and the other numeric fields are
    plain `ℚ`.
  - `pd.to_datetime` output is a structured `DateVal`; `.dt.month` is its
    `month` field.
  - pandas `rolling(window=w)` has `min_periods = w`, so a window that is
    short or contains a NaN yields NaN; otherwise the statistic of the
    window.  `rolling(w).std()` uses ddof = 1 (sample standard deviation).
  - `Series.pct_change()` yields NaN at row 0 and `x[i]/x[i-1] - 1` after.
  - scipy's `winsorize(a, limits=[0.01, 0.01])` computes `k = int(0.01*n)`
    (for the sizes in scope `int(0.01*n) = n / 100` in exact arithmetic),
    replaces the `k` smallest entries by the k-th order statistic (0-based)
    and the `k` largest by the (n-1-k)-th order statistic.  Positionwise
    this is exactly clamping every entry into
    `[orderStat k, orderStat (n-1-k)]`: entries strictly below the lower
    order statistic sit at sorted positions `< k` and are raised to it,
    entries strictly above the upper one sit at sorted positions `> n-1-k`
    and are lowered to it, and every other entry is replaced by itself or
    untouched.
  - the uncaught `KeyError` a missing required column raises in
    `load_data` is an `Except.error`; the Streamlit page then shows only
    the error and never reaches the table / chart rendering code.
-/

namespace SMA

/-- A parsed calendar date, the result of `pd.to_datetime` on a cell of the
`Date` column.  `month` is what `.dt.month` extracts. -/
structure DateVal where
  year : Nat
  month : Nat
  day : Nat
deriving DecidableEq, Repr, Inhabited

/-- One row of the uploaded CSV after `pd.read_csv` / `pd.to_datetime`:
columns `Date, Open, High, Low, Close, Volume, Trades, VWAP`.  `Trades` is
`Option ℚ` because rows may miss it (NaN); the pipeline drops those rows. -/
structure RawRow where
  Date : DateVal
  Open : ℚ
  High : ℚ
  Low : ℚ
  Close : ℚ
  Volume : ℚ
  Trades : Option ℚ
  VWAP : ℚ
deriving DecidableEq, Repr, Inhabited

/-- Ascending sort of a rational column (the order statistics used by
winsorization and by percentiles). -/
def sortedVals (xs : List ℚ) : List ℚ :=
  xs.insertionSort (· ≤ ·)

/-- Model of `scipy.stats.mstats.winsorize(a, limits=[0.01, 0.01])` as used
on the `Volume` column: with `n = len(a)` and `k = int(0.01 * n) = n / 100`,
every entry is clamped into the interval between the k-th and the
(n-1-k)-th order statistic (see the file header for why the order-statistic
replacement scipy performs is positionwise this clamp). -/
def winsorize (xs : List ℚ) : List ℚ :=
  let n := xs.length
  let k := n / 100
  let s := sortedVals xs
  let lo := s.getD k 0
  let hi := s.getD (n - 1 - k) 0
  xs.map (fun x => max lo (min hi x))

/-- Model of `Series.pct_change()` on a NaN-free column: NaN at row 0,
`x[i]/x[i-1] - 1` for `i ≥ 1`. -/
def pct_change (xs : List ℚ) : List (Option ℚ) :=
  (List.range xs.length).map (fun i =>
    if i = 0 then none else some (xs.getD i 0 / xs.getD (i - 1) 0 - 1))

/-- All-or-nothing sequencing of a list of cells: `none` if any cell is NaN,
otherwise the list of values. -/
def seqOpt : List (Option ℚ) → Option (List ℚ)
  | [] => some []
  | none :: _ => none
  | some a :: t => (seqOpt t).map (fun l => a :: l)

/-- The trailing window a pandas `rolling(window=w)` statistic sees at row
`i`: `none` when fewer than `w` rows exist at `i` or when any entry of the
window is NaN (pandas default `min_periods = w`), otherwise the `w` cells
`xs[i-w+1..i]`. -/
def liftWindow (xs : List (Option ℚ)) (w i : Nat) : Option (List ℚ) :=
  if i + 1 < w then none
  else seqOpt ((xs.take (i + 1)).drop (i + 1 - w))

/-- Model of `Series.rolling(window=w).mean()`. -/
def rollingMean (w : Nat) (xs : List (Option ℚ)) : List (Option ℚ) :=
  (List.range xs.length).map (fun i =>
    (liftWindow xs w i).map (fun ys => ys.sum / (w : ℚ)))

/-- Sample variance (ddof = 1), the square of what pandas `std()` returns. -/
def sampleVar (ys : List ℚ) : ℚ :=
  let m := ys.sum / (ys.length : ℚ)
  (ys.map (fun y => (y - m) ^ 2)).sum / ((ys.length : ℚ) - 1)

/-- Model of the variance under `Series.rolling(window=w).std()`. -/
def rollingVar (w : Nat) (xs : List (Option ℚ)) : List (Option ℚ) :=
  (List.range xs.length).map (fun i => (liftWindow xs w i).map sampleVar)

/-- Model of `Series.rolling(window=w).std()` (ddof = 1): the square root of
the rolling sample variance.  `Real.sqrt` is noncomputable, so the table
below stores the (rational, executable) variance and recovers the std column
through this function; nothing is lost because `Real.sqrt` is a bijection
from the nonnegative variances onto the stds. -/
noncomputable def rollingStd (w : Nat) (xs : List (Option ℚ)) : List (Option ℝ) :=
  (rollingVar w xs).map (fun o => o.map (fun q => Real.sqrt (q : ℝ)))

/-- One row of the enriched table `load_data` returns: the raw columns
(with `Volume` winsorized and rows missing `Trades` gone) plus the derived
columns added in src/app.py lines 35-43. -/
structure EnrichedRow where
  Date : DateVal
  Open : ℚ
  High : ℚ
  Low : ℚ
  Close : ℚ
  Volume : ℚ
  Trades : ℚ
  VWAP : ℚ
  Daily_Return : Option ℚ
  MA5 : Option ℚ
  MA20 : Option ℚ
  MA50 : Option ℚ
  Volume_Change : Option ℚ
  High_Low_Difference : ℚ
  Rolling_Volatility_20_sq : Option ℚ
  Rolling_Mean_20 : Option ℚ
  Month : Nat

/-- The `Rolling_Volatility_20` column (trailing 20-row sample standard
deviation of `Daily_Return`): the square root of the stored rolling sample
variance `Rolling_Volatility_20_sq`.  Stored in squared (rational) form so
the pipeline stays executable; this accessor is the actual column. -/
noncomputable def EnrichedRow.Rolling_Volatility_20 (r : EnrichedRow) : Option ℝ :=
  r.Rolling_Volatility_20_sq.map (fun q => Real.sqrt (q : ℝ))

/-- Line 33: `df.dropna(subset=['Trades'], inplace=True)` — the rows kept
by the pipeline, in file order. -/
def keptRows (rows : List RawRow) : List RawRow :=
  rows.filter (fun r => r.Trades.isSome)

/-- The `Close` column the derived columns are computed over. -/
def closeCol (rows : List RawRow) : List ℚ :=
  (keptRows rows).map (fun r => r.Close)

/-- Line 34: the `Volume` column after winsorization. -/
def volCol (rows : List RawRow) : List ℚ :=
  winsorize ((keptRows rows).map (fun r => r.Volume))

/-- Line 35: the `Daily_Return` column, `df['Close'].pct_change()`. -/
def drCol (rows : List RawRow) : List (Option ℚ) :=
  pct_change (closeCol rows)

/-- Lines 36-38: the `MA5/MA20/MA50` columns,
`df['Close'].rolling(window=w).mean()`. -/
def maCol (w : Nat) (rows : List RawRow) : List (Option ℚ) :=
  rollingMean w ((closeCol rows).map some)

/-- Line 39: the `Volume_Change` column — `df['Volume'].pct_change()` of the
already-winsorized `Volume`. -/
def vchgCol (rows : List RawRow) : List (Option ℚ) :=
  pct_change (volCol rows)

/-- Line 41: the square of the `Rolling_Volatility_20` column,
`df['Daily_Return'].rolling(window=20).std()`. -/
def rvSqCol (rows : List RawRow) : List (Option ℚ) :=
  rollingVar 20 (drCol rows)

/-- Line 42: the `Rolling_Mean_20` column,
`df['Daily_Return'].rolling(window=20).mean()`. -/
def rmCol (rows : List RawRow) : List (Option ℚ) :=
  rollingMean 20 (drCol rows)

/-- Row `i` of the enriched table: the kept raw row's untouched fields, the
winsorized `Volume`, and cell `i` of each derived column. -/
def loadRow (rows : List RawRow) (i : Nat) : EnrichedRow :=
  let r := (keptRows rows).getD i default
  { Date := r.Date
    Open := r.Open
    High := r.High
    Low := r.Low
    Close := r.Close
    Volume := (volCol rows).getD i 0
    Trades := r.Trades.getD 0
    VWAP := r.VWAP
    Daily_Return := (drCol rows).getD i none
    MA5 := (maCol 5 rows).getD i none
    MA20 := (maCol 20 rows).getD i none
    MA50 := (maCol 50 rows).getD i none
    Volume_Change := (vchgCol rows).getD i none
    High_Low_Difference := r.High - r.Low
    Rolling_Volatility_20_sq := (rvSqCol rows).getD i none
    Rolling_Mean_20 := (rmCol rows).getD i none
    Month := r.Date.month }

/-- The feature pipeline `load_data` of src/app.py (lines 30-44), after the
CSV has been parsed into rows: drop rows whose `Trades` is missing,
winsorize `Volume` at limits 0.01/0.01, then derive `Daily_Return`
(pct_change of Close), `MA5/MA20/MA50` (rolling means of Close),
`Volume_Change` (pct_change of the already-winsorized Volume),
`High_Low_Difference`, `Rolling_Volatility_20` and `Rolling_Mean_20`
(rolling std / mean of Daily_Return, window 20), and `Month`. -/
def load_data (rows : List RawRow) : List EnrichedRow :=
  (List.range (keptRows rows).length).map (loadRow rows)

/-- The uploaded CSV as `pd.read_csv` sees it: the set of column names
present in the file, and the parsed rows.  Extra columns are ignored by the
pipeline, so only the header matters beyond `RawRow`'s fields. -/
structure RawCSV where
  header : List String
  rows : List RawRow

/-- The columns `load_data` subscripts (in source order `Date, Trades,
Volume, Close, High, Low`); accessing a missing one raises `KeyError`,
aborting the load.  (`Open` and `VWAP` are only read by the presentation
layer.) -/
def requiredColumns : List String :=
  ["Date", "Trades", "Volume", "Close", "High", "Low"]

/-- `load_data` including its column accesses: the first required column
missing from the CSV header raises `KeyError` (modelled as `Except.error`),
in which case no table is produced; otherwise the pipeline runs. -/
def load_data_checked (csv : RawCSV) : Except String (List EnrichedRow) :=
  match requiredColumns.find? (fun c => !(csv.header.contains c)) with
  | some c => .error ("KeyError: " ++ c)
  | none => .ok (load_data csv.rows)

/-- Modelled from the spec: the nearest-rank 1st percentile of a column of
`n` values, the value at 1-based sorted position `ceil(0.01*n)`. -/
def percentile1 (xs : List ℚ) : ℚ :=
  (sortedVals xs).getD ((xs.length + 99) / 100 - 1) 0

/-- Modelled from the spec: the nearest-rank 99th percentile of a column of
`n` values, the value at 1-based sorted position `ceil(0.99*n)`. -/
def percentile99 (xs : List ℚ) : ℚ :=
  (sortedVals xs).getD ((99 * xs.length + 99) / 100 - 1) 0

/-! ### Presentation layer

The script after `load_data` (src/app.py lines 46-149).  Every Streamlit /
matplotlib call only reads `df` (head, isnull().sum, describe, column
projections, `dropna()` without `inplace`, `groupby(...).mean()` — each
returns a fresh object), so each section is modelled as a state function
taking the table and returning the artifacts it renders together with the
table it leaves behind. -/

/-- One rendered page element, parameterized by the data it displays. -/
inductive Artifact where
  | title (s : String)
  | header (s : String)
  | subheader (s : String)
  | tableQ (cells : List (List ℚ))
  | shape (nrows ncols : Nat)
  | missingCounts (counts : List (String × Nat))
  | chart (series : List (List ℚ))
  | chartOpt (series : List (List (Option ℚ))) (xs : List DateVal)
  | bars (data : List (Nat × ℚ))
  | metricQ (label : String) (value : ℚ)
  | metricR (label : String) (value : ℝ)
  | warning (s : String)

/-- Mean of a column skipping NaN, as pandas `Series.mean()` does. -/
def optMean (xs : List (Option ℚ)) : ℚ :=
  let v := xs.filterMap id
  v.sum / (v.length : ℚ)

/-- The numeric cells `df[['Open','High','Low','Close','Volume']]` of one
row, the subset several renderers display. -/
def ohlcv (r : EnrichedRow) : List ℚ :=
  [r.Open, r.High, r.Low, r.Close, r.Volume]

/-- NaN counts per derived column, `df.isnull().sum()`. -/
def missingPerColumn (df : List EnrichedRow) : List (String × Nat) :=
  [("Daily_Return", (df.filter (fun r => r.Daily_Return.isNone)).length),
   ("MA5", (df.filter (fun r => r.MA5.isNone)).length),
   ("MA20", (df.filter (fun r => r.MA20.isNone)).length),
   ("MA50", (df.filter (fun r => r.MA50.isNone)).length),
   ("Volume_Change", (df.filter (fun r => r.Volume_Change.isNone)).length),
   ("Rolling_Volatility_20",
     (df.filter (fun r => r.Rolling_Volatility_20_sq.isNone)).length),
   ("Rolling_Mean_20", (df.filter (fun r => r.Rolling_Mean_20.isNone)).length)]

/-- The EDA section (src/app.py lines 51-67): head(5), shape, missing-value
counts, describe over OHLCV.  Reads `df`, returns it unchanged. -/
def renderEDA (df : List EnrichedRow) : List Artifact × List EnrichedRow :=
  ([.header "Data Overview",
    .subheader "First 5 Rows of the Dataset",
    .tableQ ((df.take 5).map ohlcv),
    .subheader "Dataset Info",
    .shape df.length 17,
    .missingCounts (missingPerColumn df),
    .subheader "Descriptive Statistics",
    .tableQ (df.map ohlcv)],
   df)

/-- The average `Daily_Return` per calendar month,
`df.groupby('Month')['Daily_Return'].mean()` (only months present in the
data, ascending, NaN returns skipped). -/
def monthlyReturns (df : List EnrichedRow) : List (Nat × ℚ) :=
  (List.range 12).filterMap (fun j =>
    let m := j + 1
    let grp := df.filter (fun r => r.Month = m)
    if grp.isEmpty then none
    else some (m, optMean (grp.map (fun r => r.Daily_Return))))

/-- The nine charts of the visualization section (src/app.py lines 69-139),
each carrying the column data it plots.  Reads `df`, returns it unchanged;
the rolling-volatility chart plots the std column, carried here in its
squared (rational) form. -/
def renderVisuals (df : List EnrichedRow) : List Artifact × List EnrichedRow :=
  let dates := df.map (fun r => r.Date)
  ([.header "Visual Explorations",
    .subheader "Price Distribution Histograms",
    .chart [df.map (fun r => r.Open), df.map (fun r => r.High),
            df.map (fun r => r.Low), df.map (fun r => r.Close),
            df.map (fun r => r.Volume)],
    .subheader "Stock Prices Over Time",
    .chart [df.map (fun r => r.Open), df.map (fun r => r.High),
            df.map (fun r => r.Low), df.map (fun r => r.Close)],
    .subheader "Trading Volume Over Time",
    .chart [df.map (fun r => r.Volume)],
    .subheader "Moving Averages",
    .chartOpt [df.map (fun r => some r.Close), df.map (fun r => r.MA5),
               df.map (fun r => r.MA20), df.map (fun r => r.MA50)] dates,
    .subheader "Distribution of Returns + Volume Change",
    .chart [(df.map (fun r => r.Daily_Return)).filterMap id,
            (df.map (fun r => r.Volume_Change)).filterMap id],
    .subheader "Correlation Matrix Heatmap",
    .chartOpt [df.map (fun r => some r.Open), df.map (fun r => some r.High),
               df.map (fun r => some r.Low), df.map (fun r => some r.Close),
               df.map (fun r => some r.VWAP), df.map (fun r => some r.Volume),
               df.map (fun r => r.Daily_Return), df.map (fun r => r.MA5),
               df.map (fun r => r.MA20), df.map (fun r => r.MA50),
               df.map (fun r => r.Volume_Change),
               df.map (fun r => some r.High_Low_Difference)] dates,
    .subheader "Volatility Trend Over Time",
    .chartOpt [df.map (fun r => r.Rolling_Volatility_20_sq)] dates,
    .subheader "Volume vs Return Scatter",
    .chartOpt [df.map (fun r => r.Volume_Change),
               df.map (fun r => r.Daily_Return)] dates,
    .subheader "Average Monthly Return",
    .bars (monthlyReturns df)],
   df)

/-- The key-metrics section (src/app.py lines 141-146): mean and sample
standard deviation of `Daily_Return` (NaN skipped) and mean `Volume`.
Reads `df`, returns it unchanged. -/
noncomputable def renderMetrics (df : List EnrichedRow) : List Artifact × List EnrichedRow :=
  let dr := (df.map (fun r => r.Daily_Return)).filterMap id
  ([.header "Key Metrics",
    .metricQ "Avg Daily Return" (optMean (df.map (fun r => r.Daily_Return))),
    .metricR "Volatility (Std Dev)" (Real.sqrt ((sampleVar dr : ℚ) : ℝ)),
    .metricQ "Avg Trading Volume" (optMean (df.map (fun r => some r.Volume)))],
   df)

/-- The page rendered for a successfully loaded table (src/app.py lines
49-146): the title, then each section iff its checkbox is on, threading the
table through every section. -/
noncomputable def renderApp (df : List EnrichedRow)
    (show_eda show_visuals show_metrics : Bool) :
    List Artifact × List EnrichedRow :=
  let a0 := [Artifact.title "Adani Ports Stock Market Dashboard"]
  let (a1, df1) := if show_eda then renderEDA df else ([], df)
  let (a2, df2) := if show_visuals then renderVisuals df1 else ([], df1)
  let (a3, df3) := if show_metrics then renderMetrics df2 else ([], df2)
  (a0 ++ a1 ++ a2 ++ a3, df3)

/-- The whole script for one uploaded file: run `load_data`; a `KeyError`
(missing required column) aborts the script, Streamlit shows only the error
and no section of the page is rendered; otherwise render the page. -/
noncomputable def app (csv : RawCSV)
    (show_eda show_visuals show_metrics : Bool) : List Artifact :=
  match load_data_checked csv with
  | .error msg => [Artifact.warning msg]
  | .ok df => (renderApp df show_eda show_visuals show_metrics).1

/-! ### Concrete inputs for scenarios and witnesses -/

/-- A 7-row concrete input, 6 rows kept (row 2 misses `Trades`), with an
extreme `Volume` outlier; used by the witnesses. -/
def rowsW : List RawRow :=
  [{ Date := ⟨2021, 1, 4⟩, Open := 10, High := 12, Low := 9, Close := 11,
     Volume := 100, Trades := some 5, VWAP := 11 },
   { Date := ⟨2021, 1, 5⟩, Open := 11, High := 13, Low := 10, Close := 12,
     Volume := 1000000, Trades := some 6, VWAP := 12 },
   { Date := ⟨2021, 1, 6⟩, Open := 12, High := 14, Low := 11, Close := 13,
     Volume := 90, Trades := none, VWAP := 13 },
   { Date := ⟨2021, 1, 7⟩, Open := 13, High := 15, Low := 12, Close := 13,
     Volume := 80, Trades := some 7, VWAP := 13 },
   { Date := ⟨2021, 1, 8⟩, Open := 14, High := 16, Low := 13, Close := 14,
     Volume := 70, Trades := some 8, VWAP := 14 },
   { Date := ⟨2021, 1, 11⟩, Open := 15, High := 17, Low := 14, Close := 15,
     Volume := 60, Trades := some 9, VWAP := 15 },
   { Date := ⟨2021, 1, 12⟩, Open := 16, High := 18, Low := 15, Close := 16,
     Volume := 50, Trades := some 4, VWAP := 16 }]

/-- The C1 scenario input: 200 rows, none missing `Trades`, `Volume` values
1..200 in file order except a single extreme outlier (1000000) at row 100. -/
def rows200 : List RawRow :=
  (List.range 200).map (fun j =>
    { Date := ⟨2021, j % 12 + 1, j % 28 + 1⟩, Open := 100, High := 105,
      Low := 95, Close := 100,
      Volume := if j = 100 then 1000000 else (j : ℚ) + 1,
      Trades := some 3, VWAP := 100 })

/-- The C7 scenario input: 60 daily rows, no missing `Trades`, `Close`
constant at 100. -/
def rows60 : List RawRow :=
  (List.range 60).map (fun j =>
    { Date := ⟨2021, j % 12 + 1, j % 28 + 1⟩, Open := 100, High := 105,
      Low := 95, Close := 100, Volume := 50 + (j : ℚ),
      Trades := some 3, VWAP := 100 })

/-- A CSV whose header lacks the `Trades` column entirely. -/
def csvNoTrades : RawCSV :=
  { header := ["Date", "Open", "High", "Low", "Close", "Volume", "VWAP"],
    rows := [] }

/-! ### Basic lemmas about the pipeline -/

theorem range_map_getD {α : Type} (col : List α) (d : α) :
    (List.range col.length).map (fun i => col.getD i d) = col := by
  apply List.ext_get
  · simp
  · intro i h1 h2
    simp [List.getElem?_eq_getElem h2]

theorem load_data_length (rows : List RawRow) :
    (load_data rows).length = (keptRows rows).length := by
  simp [load_data]

theorem load_data_get (rows : List RawRow) (i : Nat)
    (h : i < (load_data rows).length) :
    (load_data rows).get ⟨i, h⟩ = loadRow rows i := by
  simp [load_data]

theorem load_data_map_col {β : Type} (rows : List RawRow) (f : EnrichedRow → β)
    (col : List β) (d : β)
    (hlen : col.length = (keptRows rows).length)
    (hf : ∀ i, f (loadRow rows i) = col.getD i d) :
    (load_data rows).map f = col := by
  rw [load_data, List.map_map, ← hlen]
  have hfun : (f ∘ loadRow rows) = fun i => col.getD i d := funext fun i => hf i
  rw [hfun, range_map_getD]

theorem pct_change_length (xs : List ℚ) : (pct_change xs).length = xs.length := by
  simp [pct_change]

theorem rollingMean_length (w : Nat) (xs : List (Option ℚ)) :
    (rollingMean w xs).length = xs.length := by
  simp [rollingMean]

theorem rollingVar_length (w : Nat) (xs : List (Option ℚ)) :
    (rollingVar w xs).length = xs.length := by
  simp [rollingVar]

theorem winsorize_length (xs : List ℚ) : (winsorize xs).length = xs.length := by
  simp [winsorize]

theorem closeCol_length (rows : List RawRow) :
    (closeCol rows).length = (keptRows rows).length := by
  simp [closeCol]

theorem volCol_length (rows : List RawRow) :
    (volCol rows).length = (keptRows rows).length := by
  simp [volCol, winsorize_length]

theorem load_data_map_Close (rows : List RawRow) :
    (load_data rows).map (fun r => r.Close) = closeCol rows :=
  load_data_map_col rows _ _ (default : RawRow).Close (closeCol_length rows)
    (fun i => by simp [loadRow, closeCol, List.getD_map])

theorem load_data_map_Volume (rows : List RawRow) :
    (load_data rows).map (fun r => r.Volume) = volCol rows :=
  load_data_map_col rows _ _ 0 (volCol_length rows) (fun _ => rfl)

theorem load_data_map_Daily_Return (rows : List RawRow) :
    (load_data rows).map (fun r => r.Daily_Return) = drCol rows :=
  load_data_map_col rows _ _ none
    (by rw [drCol, pct_change_length, closeCol_length]) (fun i => rfl)

theorem maCol_length (w : Nat) (rows : List RawRow) :
    (maCol w rows).length = (keptRows rows).length := by
  rw [maCol, rollingMean_length, List.length_map, closeCol_length]

theorem load_data_map_MA5 (rows : List RawRow) :
    (load_data rows).map (fun r => r.MA5) = maCol 5 rows :=
  load_data_map_col rows _ _ none (maCol_length 5 rows) (fun _ => rfl)

theorem load_data_map_MA20 (rows : List RawRow) :
    (load_data rows).map (fun r => r.MA20) = maCol 20 rows :=
  load_data_map_col rows _ _ none (maCol_length 20 rows) (fun _ => rfl)

theorem load_data_map_MA50 (rows : List RawRow) :
    (load_data rows).map (fun r => r.MA50) = maCol 50 rows :=
  load_data_map_col rows _ _ none (maCol_length 50 rows) (fun _ => rfl)

theorem load_data_map_Volume_Change (rows : List RawRow) :
    (load_data rows).map (fun r => r.Volume_Change) = vchgCol rows :=
  load_data_map_col rows _ _ none
    (by rw [vchgCol, pct_change_length, volCol_length]) (fun i => rfl)

theorem drCol_length (rows : List RawRow) :
    (drCol rows).length = (keptRows rows).length := by
  rw [drCol, pct_change_length, closeCol_length]

theorem load_data_map_rvSq (rows : List RawRow) :
    (load_data rows).map (fun r => r.Rolling_Volatility_20_sq) = rvSqCol rows :=
  load_data_map_col rows _ _ none
    (by rw [rvSqCol, rollingVar_length, drCol_length]) (fun i => rfl)

theorem load_data_map_rv (rows : List RawRow) :
    (load_data rows).map (fun r => r.Rolling_Volatility_20)
      = (rvSqCol rows).map (fun o => o.map (fun q => Real.sqrt (q : ℝ))) := by
  have h := congrArg (List.map (fun o : Option ℚ =>
    o.map (fun q => Real.sqrt (q : ℝ)))) (load_data_map_rvSq rows)
  rw [List.map_map] at h
  exact h

theorem load_data_map_Rolling_Mean_20 (rows : List RawRow) :
    (load_data rows).map (fun r => r.Rolling_Mean_20) = rmCol rows :=
  load_data_map_col rows _ _ none
    (by rw [rmCol, rollingMean_length, drCol_length]) (fun i => rfl)

theorem pct_change_getD (xs : List ℚ) (i : Nat) (h : i < xs.length) :
    (pct_change xs).getD i none
      = if i = 0 then none else some (xs.getD i 0 / xs.getD (i - 1) 0 - 1) := by
  rw [pct_change, List.getD_eq_getElem _ _ (by simpa [pct_change] using h)]
  simp

theorem rollingMean_getD (w : Nat) (xs : List (Option ℚ)) (i : Nat)
    (h : i < xs.length) :
    (rollingMean w xs).getD i none
      = (liftWindow xs w i).map (fun ys => ys.sum / (w : ℚ)) := by
  rw [rollingMean, List.getD_eq_getElem _ _ (by simpa [rollingMean] using h)]
  simp

theorem rollingVar_getD (w : Nat) (xs : List (Option ℚ)) (i : Nat)
    (h : i < xs.length) :
    (rollingVar w xs).getD i none = (liftWindow xs w i).map sampleVar := by
  rw [rollingVar, List.getD_eq_getElem _ _ (by simpa [rollingVar] using h)]
  simp

theorem closeCol_getD (rows : List RawRow) (i : Nat)
    (h : i < (keptRows rows).length) :
    (closeCol rows).getD i 0 = ((keptRows rows).getD i default).Close := by
  rw [closeCol, List.getD_eq_getElem _ _ (by simpa using h),
    List.getElem_map, List.getD_eq_getElem _ _ h]

theorem seqOpt_map_some (l : List ℚ) : seqOpt (l.map some) = some l := by
  induction l with
  | nil => rfl
  | cons a t ih => simp [seqOpt, ih]

/-- On a NaN-free column, the rolling window at `i ≥ w-1` is just the slice
`xs[i-w+1..i]`. -/
theorem liftWindow_map_some (xs : List ℚ) (w i : Nat) (hw : ¬ i + 1 < w) :
    liftWindow (xs.map some) w i = some ((xs.take (i + 1)).drop (i + 1 - w)) := by
  rw [liftWindow, if_neg hw, ← List.map_take, ← List.map_drop, seqOpt_map_some]

/-! ### Order-statistic lemmas for winsorization -/

theorem sortedVals_sorted (xs : List ℚ) : (sortedVals xs).Sorted (· ≤ ·) :=
  List.sorted_insertionSort _ xs

theorem sortedVals_perm (xs : List ℚ) : List.Perm (sortedVals xs) xs :=
  List.perm_insertionSort _ xs

theorem sortedVals_length (xs : List ℚ) : (sortedVals xs).length = xs.length :=
  (sortedVals_perm xs).length_eq

theorem sorted_getD_mono (xs : List ℚ) {i j : Nat} (hij : i ≤ j)
    (hj : j < (sortedVals xs).length) :
    (sortedVals xs).getD i 0 ≤ (sortedVals xs).getD j 0 := by
  have hi : i < (sortedVals xs).length := lt_of_le_of_lt hij hj
  rw [List.getD_eq_getElem _ _ hi, List.getD_eq_getElem _ _ hj]
  exact (sortedVals_sorted xs).rel_get_of_le (a := ⟨i, hi⟩) (b := ⟨j, hj⟩) hij

theorem sorted_min_le {xs : List ℚ} {y : ℚ} (hy : y ∈ xs) :
    (sortedVals xs).getD 0 0 ≤ y := by
  have hy' : y ∈ sortedVals xs := (sortedVals_perm xs).mem_iff.mpr hy
  obtain ⟨j, hj⟩ := List.mem_iff_get.mp hy'
  have h0 : (0 : Nat) < (sortedVals xs).length := j.2.trans_le' (Nat.zero_le _)
  calc (sortedVals xs).getD 0 0 ≤ (sortedVals xs).getD j 0 :=
        sorted_getD_mono xs (Nat.zero_le _) j.2
    _ = y := by rw [List.getD_eq_getElem _ _ j.2, ← hj]; simp

theorem le_sorted_max {xs : List ℚ} {y : ℚ} (hy : y ∈ xs) :
    y ≤ (sortedVals xs).getD (xs.length - 1) 0 := by
  have hy' : y ∈ sortedVals xs := (sortedVals_perm xs).mem_iff.mpr hy
  obtain ⟨j, hj⟩ := List.mem_iff_get.mp hy'
  have hl : (sortedVals xs).length = xs.length := sortedVals_length xs
  have hn : 1 ≤ xs.length := List.length_pos.mpr (List.ne_nil_of_mem hy)
  have hlast : xs.length - 1 < (sortedVals xs).length := by
    rw [hl]; omega

  calc y = (sortedVals xs).getD j 0 := by
        rw [List.getD_eq_getElem _ _ j.2, ← hj]; simp
    _ ≤ (sortedVals xs).getD (xs.length - 1) 0 :=
        sorted_getD_mono xs (by have h2 := j.2; omega) hlast

/-- Unfolded form of `winsorize`. -/
theorem winsorize_eq_map (xs : List ℚ) :
    winsorize xs = xs.map (fun x =>
      max ((sortedVals xs).getD (xs.length / 100) 0)
        (min ((sortedVals xs).getD (xs.length - 1 - xs.length / 100) 0) x)) :=
  rfl

/-- Every winsorized value lies between the nearest-rank 1st and 99th
percentiles of the input column. -/
theorem winsorize_mem_bounds {xs : List ℚ} {x : ℚ} (hx : x ∈ winsorize xs) :
    percentile1 xs ≤ x ∧ x ≤ percentile99 xs := by
  rw [winsorize_eq_map] at hx
  obtain ⟨y, hy, rfl⟩ := List.mem_map.mp hx
  have hn : 1 ≤ xs.length := List.length_pos.mpr (List.ne_nil_of_mem hy)
  have hlen : (sortedVals xs).length = xs.length := sortedVals_length xs
  have hkn : xs.length / 100 < (sortedVals xs).length := by rw [hlen]; omega
  have hhin : xs.length - 1 - xs.length / 100 < (sortedVals xs).length := by
    rw [hlen]; omega
  have hp99 : (99 * xs.length + 99) / 100 - 1 = xs.length - 1 - xs.length / 100 := by
    omega
  constructor
  · refine le_max_of_le_left ?_
    exact sorted_getD_mono xs (by omega) hkn
  · rw [percentile99, hp99]
    refine max_le ?_ (min_le_left _ _)
    exact sorted_getD_mono xs (by omega) hhin

/-- On a column of fewer than 100 values, `int(0.01*n) = 0` and
winsorization clamps to the full range of the data: it is the identity. -/
theorem winsorize_small {xs : List ℚ} (h : xs.length < 100) :
    winsorize xs = xs := by
  have hk : xs.length / 100 = 0 := Nat.div_eq_of_lt h
  rw [winsorize_eq_map]
  have : ∀ y ∈ xs, (fun x =>
      max ((sortedVals xs).getD (xs.length / 100) 0)
        (min ((sortedVals xs).getD (xs.length - 1 - xs.length / 100) 0) x)) y = id y := by
    intro y hy
    simp only [hk, Nat.sub_zero, id]
    rw [min_eq_right (le_sorted_max hy), max_eq_right (sorted_min_le hy)]
  rw [List.map_congr_left this, List.map_id]

theorem getD_map_def {α β : Type} [Inhabited α] (f : α → β) (l : List α) (i : Nat) :
    (l.map f).getD i (f default) = f (l.getD i default) :=
  List.getD_map l default f

theorem maCol_getD (w : Nat) (rows : List RawRow) (i : Nat)
    (hik : i < (keptRows rows).length) :
    (maCol w rows).getD i none =
      if i + 1 < w then none
      else some ((((closeCol rows).take (i + 1)).drop (i + 1 - w)).sum / (w : ℚ)) := by
  rw [maCol, rollingMean_getD _ _ _ (by simpa [closeCol_length] using hik)]
  by_cases h : i + 1 < w
  · rw [if_pos h, liftWindow, if_pos h]
    rfl
  · rw [if_neg h, liftWindow_map_some _ _ _ h]
    rfl

/-! ### Date-remapping lemmas (the pipeline never looks at `Date` except to
read off `Month`) -/

theorem keptRows_remap (rows : List RawRow) (f : DateVal → DateVal) :
    keptRows (rows.map (fun r => { r with Date := f r.Date }))
      = (keptRows rows).map (fun r => { r with Date := f r.Date }) := by
  rw [keptRows, keptRows, List.filter_map]
  rfl

theorem closeCol_remap (rows : List RawRow) (f : DateVal → DateVal) :
    closeCol (rows.map (fun r => { r with Date := f r.Date })) = closeCol rows := by
  rw [closeCol, closeCol, keptRows_remap, List.map_map]
  rfl

theorem volCol_remap (rows : List RawRow) (f : DateVal → DateVal) :
    volCol (rows.map (fun r => { r with Date := f r.Date })) = volCol rows := by
  rw [volCol, volCol, keptRows_remap, List.map_map]
  rfl

/-! ### Claims -/

/-- C5: the pipeline's output has at most as many rows as the input, the
rows removed are exactly those whose `Trades` field is absent (the retained
rows, with all their raw fields, are the `Trades.isSome` filter of the
input in order), and no rows are added. -/
theorem C5_row_count (rows : List RawRow) :
    (load_data rows).length ≤ rows.length ∧
    (load_data rows).length = (rows.filter (fun r => r.Trades.isSome)).length ∧
    (load_data rows).map (fun r => (r.Date, r.Open, r.High, r.Low, r.Close, r.VWAP))
      = (rows.filter (fun r => r.Trades.isSome)).map
          (fun r => (r.Date, r.Open, r.High, r.Low, r.Close, r.VWAP)) := by
  refine ⟨?_, ?_, ?_⟩
  · rw [load_data_length, keptRows]
    exact List.length_filter_le _ _
  · exact load_data_length rows
  · exact load_data_map_col rows _ _
      ((fun r : RawRow => (r.Date, r.Open, r.High, r.Low, r.Close, r.VWAP)) default)
      (by simp [keptRows])
      (fun i => (getD_map_def (fun r : RawRow =>
        (r.Date, r.Open, r.High, r.Low, r.Close, r.VWAP)) (keptRows rows) i).symm)

/-- C2: `Daily_Return` of the pipeline's table is undefined at row 0 and
equals `Close[i]/Close[i-1] - 1` over the retained rows for `i ≥ 1`. -/
theorem C2_daily_return (rows : List RawRow) :
    (∀ h0 : 0 < (load_data rows).length,
        ((load_data rows).get ⟨0, h0⟩).Daily_Return = none) ∧
    (∀ (i : Nat) (hi : i < (load_data rows).length), 1 ≤ i →
        ((load_data rows).get ⟨i, hi⟩).Daily_Return
          = some (((load_data rows).get ⟨i, hi⟩).Close
              / ((load_data rows).get ⟨i - 1, by omega⟩).Close - 1)) := by
  constructor
  · intro h0
    rw [load_data_get]
    show (drCol rows).getD 0 none = none
    rw [drCol, pct_change_getD _ _ (by
      rw [closeCol_length, ← load_data_length]; exact h0)]
    simp
  · intro i hi h1
    have hik : i < (keptRows rows).length := by rwa [load_data_length] at hi
    simp only [load_data_get]
    show (drCol rows).getD i none = _
    rw [drCol, pct_change_getD _ _ (by rwa [closeCol_length]),
      if_neg (by omega), closeCol_getD _ _ hik, closeCol_getD _ _ (by omega)]
    rfl

/-- C3: each moving-average column `MA5/MA20/MA50` of the pipeline's table
is undefined at rows `i < w-1` and equals the arithmetic mean of the `w`
trailing `Close` values `Close[i-w+1..i]` of the table otherwise. -/
theorem C3_moving_averages (rows : List RawRow) :
    ∀ (i : Nat) (hi : i < (load_data rows).length),
      ((i < 5 - 1 → ((load_data rows).get ⟨i, hi⟩).MA5 = none) ∧
       (5 - 1 ≤ i → ((load_data rows).get ⟨i, hi⟩).MA5
          = some (((((load_data rows).map (fun r => r.Close)).take (i + 1)).drop
              (i + 1 - 5)).sum / 5))) ∧
      ((i < 20 - 1 → ((load_data rows).get ⟨i, hi⟩).MA20 = none) ∧
       (20 - 1 ≤ i → ((load_data rows).get ⟨i, hi⟩).MA20
          = some (((((load_data rows).map (fun r => r.Close)).take (i + 1)).drop
              (i + 1 - 20)).sum / 20))) ∧
      ((i < 50 - 1 → ((load_data rows).get ⟨i, hi⟩).MA50 = none) ∧
       (50 - 1 ≤ i → ((load_data rows).get ⟨i, hi⟩).MA50
          = some (((((load_data rows).map (fun r => r.Close)).take (i + 1)).drop
              (i + 1 - 50)).sum / 50))) := by
  intro i hi
  have hik : i < (keptRows rows).length := by rwa [load_data_length] at hi
  rw [load_data_map_Close]
  refine ⟨⟨?_, ?_⟩, ⟨?_, ?_⟩, ⟨?_, ?_⟩⟩ <;> intro h <;> rw [load_data_get]
  · show (maCol 5 rows).getD i none = none
    rw [maCol_getD _ _ _ hik, if_pos (by omega)]
  · show (maCol 5 rows).getD i none = _
    rw [maCol_getD _ _ _ hik, if_neg (by omega)]
    norm_num
  · show (maCol 20 rows).getD i none = none
    rw [maCol_getD _ _ _ hik, if_pos (by omega)]
  · show (maCol 20 rows).getD i none = _
    rw [maCol_getD _ _ _ hik, if_neg (by omega)]
    norm_num
  · show (maCol 50 rows).getD i none = none
    rw [maCol_getD _ _ _ hik, if_pos (by omega)]
  · show (maCol 50 rows).getD i none = _
    rw [maCol_getD _ _ _ hik, if_neg (by omega)]
    norm_num

/-- C6: the pipeline's `Volume` column is the winsorized one, and
`Volume_Change` is its fractional change — `none` at row 0 and
`ClippedVolume[i]/ClippedVolume[i-1] - 1` for `i ≥ 1` — so it is computed
from the clipped `Volume`, not the raw one. -/
theorem C6_volume_change (rows : List RawRow) :
    ((load_data rows).map (fun r => r.Volume)
        = winsorize ((rows.filter (fun r => r.Trades.isSome)).map (fun r => r.Volume))) ∧
    (∀ h0 : 0 < (load_data rows).length,
        ((load_data rows).get ⟨0, h0⟩).Volume_Change = none) ∧
    (∀ (i : Nat) (hi : i < (load_data rows).length), 1 ≤ i →
        ((load_data rows).get ⟨i, hi⟩).Volume_Change
          = some (((load_data rows).get ⟨i, hi⟩).Volume
              / ((load_data rows).get ⟨i - 1, by omega⟩).Volume - 1)) := by
  refine ⟨load_data_map_Volume rows, ?_, ?_⟩
  · intro h0
    rw [load_data_get]
    show (vchgCol rows).getD 0 none = none
    rw [vchgCol, pct_change_getD _ _ (by
      rw [volCol_length, ← load_data_length]; exact h0)]
    simp
  · intro i hi h1
    have hik : i < (keptRows rows).length := by rwa [load_data_length] at hi
    simp only [load_data_get]
    show (vchgCol rows).getD i none = _
    rw [vchgCol, pct_change_getD _ _ (by rwa [volCol_length]), if_neg (by omega)]
    rfl

/-- C10: when the retained row count is below 100, `int(0.01*n) = 0` and
winsorization clips nothing — the pipeline's `Volume` column is exactly the
raw `Volume` of the retained rows, outliers included. -/
theorem C10_winsorize_identity_small (rows : List RawRow)
    (h : (rows.filter (fun r => r.Trades.isSome)).length < 100) :
    (load_data rows).map (fun r => r.Volume)
      = (rows.filter (fun r => r.Trades.isSome)).map (fun r => r.Volume) := by
  rw [load_data_map_Volume, volCol, winsorize_small (by simpa [keptRows] using h)]
  rfl

/-- C8: rendering any combination of the three sections returns the table
it was given — no row, column or cell of the enriched table changes. -/
theorem C8_render_no_mutation (df : List EnrichedRow)
    (show_eda show_visuals show_metrics : Bool) :
    (renderApp df show_eda show_visuals show_metrics).2 = df := by
  rw [renderApp]
  cases show_eda <;> cases show_visuals <;> cases show_metrics <;> rfl

/-- C9: the pipeline keeps the retained rows in original file order (the
`Close` column of the output is the filtered input `Close` column, in
order), and every derived row-to-row / rolling column is invariant under an
arbitrary change of the `Date` values: nothing is sorted by `Date`. -/
theorem C9_file_order (rows : List RawRow) (f : DateVal → DateVal) :
    ((load_data rows).map (fun r => r.Close)
        = (rows.filter (fun r => r.Trades.isSome)).map (fun r => r.Close)) ∧
    ((load_data (rows.map (fun r => { r with Date := f r.Date }))).map
          (fun r => r.Daily_Return)
        = (load_data rows).map (fun r => r.Daily_Return)) ∧
    ((load_data (rows.map (fun r => { r with Date := f r.Date }))).map
          (fun r => r.MA5)
        = (load_data rows).map (fun r => r.MA5)) ∧
    ((load_data (rows.map (fun r => { r with Date := f r.Date }))).map
          (fun r => r.MA20)
        = (load_data rows).map (fun r => r.MA20)) ∧
    ((load_data (rows.map (fun r => { r with Date := f r.Date }))).map
          (fun r => r.MA50)
        = (load_data rows).map (fun r => r.MA50)) ∧
    ((load_data (rows.map (fun r => { r with Date := f r.Date }))).map
          (fun r => r.Volume_Change)
        = (load_data rows).map (fun r => r.Volume_Change)) ∧
    ((load_data (rows.map (fun r => { r with Date := f r.Date }))).map
          (fun r => r.Rolling_Volatility_20)
        = (load_data rows).map (fun r => r.Rolling_Volatility_20)) ∧
    ((load_data (rows.map (fun r => { r with Date := f r.Date }))).map
          (fun r => r.Rolling_Mean_20)
        = (load_data rows).map (fun r => r.Rolling_Mean_20)) := by
  set rows' := rows.map (fun r => { r with Date := f r.Date }) with hrows
  have hclose : closeCol rows' = closeCol rows := closeCol_remap rows f
  have hvol : volCol rows' = volCol rows := volCol_remap rows f
  have hdr : drCol rows' = drCol rows := by rw [drCol, drCol, hclose]
  refine ⟨load_data_map_Close rows, ?_, ?_, ?_, ?_, ?_, ?_, ?_⟩
  · rw [load_data_map_Daily_Return, load_data_map_Daily_Return, hdr]
  · rw [load_data_map_MA5, load_data_map_MA5, maCol, maCol, hclose]
  · rw [load_data_map_MA20, load_data_map_MA20, maCol, maCol, hclose]
  · rw [load_data_map_MA50, load_data_map_MA50, maCol, maCol, hclose]
  · rw [load_data_map_Volume_Change, load_data_map_Volume_Change, vchgCol, vchgCol, hvol]
  · rw [load_data_map_rv, load_data_map_rv, rvSqCol, rvSqCol, hdr]
  · rw [load_data_map_Rolling_Mean_20, load_data_map_Rolling_Mean_20, rmCol, rmCol, hdr]

/-! ### Concrete scenario claims

The Batteries `Rat` arithmetic operations are `@[irreducible]` for the
elaborator; the kernel reduces them regardless.  Concrete scenarios are
settled by `decide`, which needs the elaborator to see through them, so
they are made locally semireducible in this section. -/

section ConcreteScenarios

attribute [local semireducible] Rat.add Rat.sub Rat.mul Rat.inv

set_option maxRecDepth 100000

/-- C1: after winsorization every `Volume` value of the pipeline's table
lies within the nearest-rank [1st percentile, 99th percentile] interval of
the original (pre-clipping) `Volume` column; and in the concrete 200-row
scenario with a single extreme outlier at row 100, the clipped value at
that row equals the 99th-percentile value of the original distribution,
not the raw outlier. -/
theorem C1_volume_clipped_to_percentiles :
    (∀ (rows : List RawRow) (x : ℚ),
        x ∈ (load_data rows).map (fun r => r.Volume) →
        percentile1 ((rows.filter (fun r => r.Trades.isSome)).map (fun r => r.Volume)) ≤ x ∧
        x ≤ percentile99 ((rows.filter (fun r => r.Trades.isSome)).map (fun r => r.Volume))) ∧
    rows200.length = 200 ∧
    (∀ r ∈ rows200, r.Trades.isSome) ∧
    (rows200.map (fun r => r.Volume)).getD 100 0 = 1000000 ∧
    ((load_data rows200).map (fun r => r.Volume)).getD 100 0
      = percentile99 (rows200.map (fun r => r.Volume)) ∧
    percentile99 (rows200.map (fun r => r.Volume)) ≠ 1000000 := by
  refine ⟨?_, by decide, by decide, by decide, by decide, by decide⟩
  intro rows x hx
  rw [load_data_map_Volume, volCol] at hx
  exact winsorize_mem_bounds hx

theorem C1_volume_clipped_to_percentiles_witness :
    (3 : ℚ) ∈ (load_data rows200).map (fun r => r.Volume) ∧
    (percentile1 ((rows200.filter (fun r => r.Trades.isSome)).map (fun r => r.Volume)) ≤ 3 ∧
     (3 : ℚ) ≤ percentile99 ((rows200.filter (fun r => r.Trades.isSome)).map (fun r => r.Volume))) :=
  ⟨by decide, C1_volume_clipped_to_percentiles.1 rows200 3 (by decide)⟩

/-- C4: a CSV lacking any required column (in particular one missing the
`Trades` column entirely) fails to load — the pipeline raises a `KeyError`
for some required column, no table is produced, and under every flag
assignment the page shows only the error. -/
theorem C4_missing_column_fails (csv : RawCSV)
    (h : ∃ c ∈ requiredColumns, c ∉ csv.header) :
    ∃ c, load_data_checked csv = Except.error ("KeyError: " ++ c) ∧
      ∀ show_eda show_visuals show_metrics : Bool,
        app csv show_eda show_visuals show_metrics
          = [Artifact.warning ("KeyError: " ++ c)] := by
  obtain ⟨c0, hc0mem, hc0⟩ := h
  have hfind : (requiredColumns.find? (fun c => !(csv.header.contains c))).isSome := by
    rw [List.find?_isSome]
    exact ⟨c0, hc0mem, by simpa using hc0⟩
  obtain ⟨c, hc⟩ := Option.isSome_iff_exists.mp hfind
  refine ⟨c, ?_, ?_⟩
  · rw [load_data_checked, hc]
  · intro e v m
    rw [app, load_data_checked, hc]

theorem C4_missing_column_fails_witness :
    (∃ c ∈ requiredColumns, c ∉ csvNoTrades.header) ∧
    ∃ c, load_data_checked csvNoTrades = Except.error ("KeyError: " ++ c) ∧
      ∀ show_eda show_visuals show_metrics : Bool,
        app csvNoTrades show_eda show_visuals show_metrics
          = [Artifact.warning ("KeyError: " ++ c)] :=
  ⟨⟨"Trades", by decide, by decide⟩,
   C4_missing_column_fails csvNoTrades ⟨"Trades", by decide, by decide⟩⟩

/-- C7: on 60 daily rows with constant `Close = 100` and no missing
`Trades`, `Daily_Return` is 0 from row 1 on, each moving average equals 100
wherever it is defined (and is undefined exactly on the first `w-1` rows),
and `Rolling_Volatility_20` is 0 wherever it is defined. -/
theorem C7_constant_close_scenario :
    ((load_data rows60).map (fun r => r.Daily_Return)
        = none :: List.replicate 59 (some 0)) ∧
    ((load_data rows60).map (fun r => r.MA5)
        = List.replicate 4 none ++ List.replicate 56 (some 100)) ∧
    ((load_data rows60).map (fun r => r.MA20)
        = List.replicate 19 none ++ List.replicate 41 (some 100)) ∧
    ((load_data rows60).map (fun r => r.MA50)
        = List.replicate 49 none ++ List.replicate 11 (some 100)) ∧
    ((load_data rows60).map (fun r => r.Rolling_Volatility_20)
        = List.replicate 20 none ++ List.replicate 40 (some 0)) := by
  refine ⟨by decide, by decide, by decide, by decide, ?_⟩
  rw [load_data_map_rv]
  have hvar : rvSqCol rows60 = List.replicate 20 none ++ List.replicate 40 (some 0) := by
    decide
  rw [hvar]
  simp

theorem C2_daily_return_witness :
    ((load_data rowsW).get ⟨0, by decide⟩).Daily_Return = none ∧
    ((load_data rowsW).get ⟨1, by decide⟩).Daily_Return
      = some (((load_data rowsW).get ⟨1, by decide⟩).Close
          / ((load_data rowsW).get ⟨1 - 1, by decide⟩).Close - 1) :=
  ⟨(C2_daily_return rowsW).1 (by decide),
   (C2_daily_return rowsW).2 1 (by decide) (by decide)⟩

theorem C3_moving_averages_witness :
    (((load_data rowsW).get ⟨2, by decide⟩).MA5 = none) ∧
    (((load_data rowsW).get ⟨5, by decide⟩).MA5
      = some (((((load_data rowsW).map (fun r => r.Close)).take (5 + 1)).drop
          (5 + 1 - 5)).sum / 5)) :=
  ⟨((C3_moving_averages rowsW 2 (by decide)).1).1 (by decide),
   ((C3_moving_averages rowsW 5 (by decide)).1).2 (by decide)⟩

theorem C6_volume_change_witness :
    ((load_data rowsW).map (fun r => r.Volume)
        = winsorize ((rowsW.filter (fun r => r.Trades.isSome)).map (fun r => r.Volume))) ∧
    ((load_data rowsW).get ⟨0, by decide⟩).Volume_Change = none ∧
    ((load_data rowsW).get ⟨1, by decide⟩).Volume_Change
      = some (((load_data rowsW).get ⟨1, by decide⟩).Volume
          / ((load_data rowsW).get ⟨1 - 1, by decide⟩).Volume - 1) :=
  ⟨(C6_volume_change rowsW).1, (C6_volume_change rowsW).2.1 (by decide),
   (C6_volume_change rowsW).2.2 1 (by decide) (by decide)⟩

theorem C10_winsorize_identity_small_witness :
    (rowsW.filter (fun r => r.Trades.isSome)).length < 100 ∧
    (load_data rowsW).map (fun r => r.Volume)
      = (rowsW.filter (fun r => r.Trades.isSome)).map (fun r => r.Volume) :=
  ⟨by decide, C10_winsorize_identity_small rowsW (by decide)⟩

end ConcreteScenarios

end SMA
